import Mathlib

/-!
Shallow embedding of the arbitrage bot core (eBay/Amazon arbitrage analysis
pipeline) and verification of its specification claims.

Sources embedded:
- `src/arbitrage_analyzer.py` (`ArbitrageAnalyzer`): product matching,
  fee models, opportunity construction, inline risk scoring, demand scoring,
  profitability filtering.
- `src/amazon_api.py` (`AmazonAPI.calculate_fees`): the category-keyed,
  price-tiered Amazon fee model.
- `src/advanced_features.py` (`SeasonalAnalyzer`, `RiskAssessment`,
  `OpportunityRanker`, `AutomatedDecisionEngine`).

Modelling conventions:
- Python `Decimal`/`float` amounts are modelled as `ℚ` (exact rationals).
- Python's stable list sort (`list.sort(key=..., reverse=True)`, Timsort) is
  modelled by `List.insertionSort` with the reflexive descending-key relation
  `fun a b => key b ≤ key a`; any stable sort over a total preorder computes
  the same list, and stability is proved below as a theorem.
- `difflib.SequenceMatcher(None, normalize(a), normalize(b)).ratio()` is an
  external library computation; it is modelled as an abstract similarity
  oracle `simFn : String → String → ℚ` applied to the two raw titles (title
  normalization is pure and deterministic, so the composition is a function
  of the titles).  All matching claims are proved for every such oracle.
- The database-backed price-trend volatility read by
  `RiskAssessment.assess_comprehensive_risk` is modelled as an input
  `vol : ArbitrageOpportunity → ℚ` (the value of
  `price_trend.get('volatility', 20)` for that opportunity).
- `datetime.now().month` read by `SeasonalAnalyzer.get_seasonal_multiplier`
  is modelled as an explicit `month : ℕ` input.
- `uuid.uuid4()` opportunity ids are modelled as an explicit `oid : String`
  input; `created_at` timestamps are not modelled (pure clock output, used
  by no claim).
- Python `str.lower()` and substring search (`kw in title`) are modelled on
  character lists (`lowerChars`, `charsSub`); all keyword tables are ASCII.
-/

namespace ArbBot

/-- Character-list model of Python `str.lower()` (ASCII). -/
def lowerChars (s : String) : List Char := s.data.map Char.toLower

/-- `charsPre l pat` is true when `pat` is a prefix of `l`. -/
def charsPre : List Char → List Char → Bool
  | _, [] => true
  | [], _ :: _ => false
  | a :: as, b :: bs => a == b && charsPre as bs

/-- `charsSub l pat` is true when `pat` occurs contiguously in `l`
(model of Python `pat in l`). -/
def charsSub : List Char → List Char → Bool
  | [], pat => pat.isEmpty
  | a :: as, pat => charsPre (a :: as) pat || charsSub as pat

/-- `models.Product` (Python dataclass), with `Decimal` fields as `ℚ`. -/
structure Product where
  platform : String
  product_id : String
  title : String
  price : ℚ
  currency : String := "GBP"
  shipping : ℚ := 0
  url : String := ""
  seller_rating : ℚ := 0
  stock : ℤ := 0
  condition : String := "new"
  image_url : String := ""
  seller_id : String := ""
  category : String := "general"
deriving DecidableEq

/-- `models.ArbitrageOpportunity` (Python dataclass).  The `created_at`
timestamp (stamped from the wall clock in `__post_init__`) is not modelled. -/
structure ArbitrageOpportunity where
  opportunity_id : String
  source_platform : String
  target_platform : String
  product_title : String
  source_price : ℚ
  target_price : ℚ
  source_url : String := ""
  target_url : String := ""
  source_shipping : ℚ := 0
  target_shipping : ℚ := 0
  source_fees : ℚ := 0
  target_fees : ℚ := 0
  net_profit : ℚ := 0
  roi_percentage : ℚ := 0
  source_seller_rating : ℚ := 0
  target_seller_rating : ℚ := 0
  source_stock : ℤ := 0
  target_demand_score : ℚ := 0
  risk_score : ℚ := 0
  status : String := "new"
  notes : String := ""
deriving DecidableEq

/-- `models.ProfitThresholds`. -/
structure ProfitThresholds where
  min_profit_gbp : ℚ := 10
  min_roi_percentage : ℚ := 25
  alert_profit_gbp : ℚ := 25
  max_risk_score : ℚ := 7
  min_seller_rating : ℚ := 3.5
deriving DecidableEq

/-- One candidate match `(source_product, target_product, similarity)` as
built by `ArbitrageAnalyzer._match_products`. -/
structure MatchCand where
  source : Product
  target : Product
  similarity : ℚ
deriving DecidableEq

/-- `ArbitrageAnalyzer._calculate_ebay_fees`. -/
def calculate_ebay_fees (price : ℚ) (transaction_type : String) : ℚ :=
  if transaction_type = "sell" then
    let listing_fee : ℚ := 0.35
    let final_value_fee : ℚ := price * 0.129
    let payment_processing : ℚ := price * 0.03 + 0.30
    listing_fee + final_value_fee + payment_processing
  else 0

/-- `ArbitrageAnalyzer._calculate_amazon_fees` (the simplified fee model the
analyzer actually uses for opportunity pricing). -/
def calculate_amazon_fees (price : ℚ) (transaction_type : String) : ℚ :=
  if transaction_type = "sell" then
    let referral_fee : ℚ := price * 0.15
    let fba_fee : ℚ := 2.50
    let storage_fee : ℚ := 0.75
    referral_fee + fba_fee + storage_fee
  else 0

/-- `ArbitrageAnalyzer._calculate_fees`: string-keyed dispatch on the
platform (`self.fee_calculators.get(platform)`), returning `0` for an
unknown platform. -/
def calculate_fees (price : ℚ) (platform : String) (transaction_type : String) : ℚ :=
  if platform = "ebay" then calculate_ebay_fees price transaction_type
  else if platform = "amazon" then calculate_amazon_fees price transaction_type
  else 0

/-- Referral-fee table of `AmazonAPI.calculate_fees` in `amazon_api.py`
(`referral_fees.get(category.lower(), Decimal('0.15'))`). -/
def amazon_referral_fee_rate (category : String) : ℚ :=
  let c := lowerChars category
  if c = "electronics".data then 0.08
  else if c = "computers".data then 0.06
  else if c = "home_garden".data then 0.15
  else if c = "books".data then 0.15
  else if c = "clothing".data then 0.17
  else if c = "jewelry".data then 0.20
  else if c = "general".data then 0.15
  else 0.15

/-- `AmazonAPI.calculate_fees` in `amazon_api.py`: category-keyed referral
fee, three-band price-tiered fulfillment fee, flat storage fee, and a
conditional closing fee for the `books`/`media` categories. -/
def amazonapi_calculate_fees (price : ℚ) (category : String) : ℚ :=
  let referral_fee : ℚ := price * amazon_referral_fee_rate category
  let fulfillment_fee : ℚ := if price ≤ 10 then 2.31 else if price ≤ 20 then 2.75 else 3.22
  let storage_fee : ℚ := 0.75
  let closing_fee : ℚ := if category = "books" ∨ category = "media" then 1.35 else 0
  referral_fee + fulfillment_fee + storage_fee + closing_fee

/-- Price-ratio component of `ArbitrageAnalyzer._calculate_risk_score`
(guarded by `source_product.price > 0`). -/
def price_ratio_risk (s t : Product) : ℚ :=
  if 0 < s.price then
    (if 3 < t.price / s.price then 3
     else if 2 < t.price / s.price then 1.5
     else 0)
  else 0

/-- Source seller-rating component of `_calculate_risk_score`. -/
def source_rating_risk (s : Product) : ℚ := if s.seller_rating < 4 then 2 else 0

/-- Target seller-rating component of `_calculate_risk_score`. -/
def target_rating_risk (t : Product) : ℚ := if t.seller_rating < 4 then 1 else 0

/-- Stock-availability component of `_calculate_risk_score` (two separate
`if` statements in the source: both fire at stock `0`). -/
def stock_risk (s : Product) : ℚ :=
  (if s.stock < 5 then 1.5 else 0) + (if s.stock = 0 then 3 else 0)

/-- Profit-margin component of `_calculate_risk_score`. -/
def profit_margin_risk (profit : ℚ) : ℚ :=
  if profit < 5 then 2 else if profit < 15 then 1 else 0

/-- Platform component of `_calculate_risk_score`
(`platform_risk.get(source_product.platform, 1.0)`). -/
def platform_risk_offset (s : Product) : ℚ :=
  if s.platform = "ebay" then 1 else if s.platform = "amazon" then 0.5 else 1

/-- `ArbitrageAnalyzer._calculate_risk_score`: the inline (opportunity
construction time) risk score, an accumulated sum of the component
contributions clamped by `min(risk, 10.0)`. -/
def calculate_risk_score (s t : Product) (profit : ℚ) : ℚ :=
  min (price_ratio_risk s t + source_rating_risk s + target_rating_risk t +
       stock_risk s + profit_margin_risk profit + platform_risk_offset s) 10

/-- High-demand keyword list of `ArbitrageAnalyzer._estimate_demand_score`. -/
def high_demand_keywords : List String :=
  ["iphone", "samsung", "apple", "sony", "nintendo",
   "playstation", "xbox", "airpods", "macbook"]

/-- `ArbitrageAnalyzer._estimate_demand_score`. -/
def estimate_demand_score (p : Product) : ℚ :=
  let title_lower := lowerChars p.title
  let score : ℚ := 5
  let score := score + (if high_demand_keywords.any (fun k => charsSub title_lower k.data) then 2 else 0)
  let score := score + (if 20 ≤ p.price ∧ p.price ≤ 200 then 1 else 0)
  min score 10

/-- `total_costs` local of `ArbitrageAnalyzer._analyze_opportunity`:
`source_total_cost + source_fees + target_fees`. -/
def total_costs (s t : Product) : ℚ :=
  (s.price + s.shipping) + calculate_fees s.price s.platform "buy" +
    calculate_fees t.price t.platform "sell"

/-- `ArbitrageAnalyzer._analyze_opportunity` (`oid` models the fresh
`uuid.uuid4()` string). -/
def analyze_opportunity (oid : String) (s t : Product) : ArbitrageOpportunity :=
  { opportunity_id := oid
    source_platform := s.platform
    target_platform := t.platform
    product_title := t.title
    source_price := s.price
    target_price := t.price
    source_url := s.url
    target_url := t.url
    source_shipping := s.shipping
    target_shipping := t.shipping
    source_fees := calculate_fees s.price s.platform "buy"
    target_fees := calculate_fees t.price t.platform "sell"
    net_profit := t.price - total_costs s t
    roi_percentage :=
      if 0 < total_costs s t then (t.price - total_costs s t) / total_costs s t * 100 else 0
    source_seller_rating := s.seller_rating
    target_seller_rating := t.seller_rating
    source_stock := s.stock
    target_demand_score := estimate_demand_score t
    risk_score := calculate_risk_score s t (t.price - total_costs s t) }

/-- `ArbitrageAnalyzer._is_profitable_opportunity`. -/
def is_profitable_opportunity (thr : ProfitThresholds) (o : ArbitrageOpportunity) : Bool :=
  decide (thr.min_profit_gbp ≤ o.net_profit) &&
  decide (thr.min_roi_percentage ≤ o.roi_percentage) &&
  decide (o.risk_score ≤ thr.max_risk_score) &&
  decide (thr.min_seller_rating ≤ o.source_seller_rating)

/-- The candidate-collection loop of `ArbitrageAnalyzer._match_products`:
for every source×target pair, keep it when `similarity > 0.6`.
`simFn` models `SequenceMatcher(None, normalize(a), normalize(b)).ratio()`. -/
def match_candidates (simFn : String → String → ℚ) (src tgt : List Product) : List MatchCand :=
  src.flatMap fun s =>
    tgt.filterMap fun t =>
      let similarity := simFn s.title t.title
      if 0.6 < similarity then some ⟨s, t, similarity⟩ else none

/-- The `matches.sort(key=lambda x: x[2], reverse=True)` step of
`_match_products`: a stable sort by similarity descending. -/
def sort_by_similarity (l : List MatchCand) : List MatchCand :=
  List.insertionSort (fun a b => b.similarity ≤ a.similarity) l

/-- The greedy dedup loop of `_match_products` with its `seen_sources` /
`seen_targets` sets. -/
def select_unique : List MatchCand → List String → List String → List MatchCand
  | [], _, _ => []
  | c :: rest, seenS, seenT =>
    if c.source.product_id ∉ seenS ∧ c.target.product_id ∉ seenT then
      c :: select_unique rest (c.source.product_id :: seenS) (c.target.product_id :: seenT)
    else
      select_unique rest seenS seenT

/-- `ArbitrageAnalyzer._match_products`. -/
def match_products (simFn : String → String → ℚ) (src tgt : List Product) : List MatchCand :=
  select_unique (sort_by_similarity (match_candidates simFn src tgt)) [] []

/-- All source×target pairs in loop order (used to characterise
`match_candidates` as a similarity filter). -/
def all_pairs (simFn : String → String → ℚ) (src tgt : List Product) : List MatchCand :=
  src.flatMap fun s => tgt.map fun t => ⟨s, t, simFn s.title t.title⟩

/-- `ArbitrageAnalyzer.find_opportunities`: skip matches with
`similarity < 0.7`, build opportunities, keep the profitable ones, and sort
by net profit descending (stable). -/
def find_opportunities (simFn : String → String → ℚ) (oid : String)
    (thr : ProfitThresholds) (src tgt : List Product) : List ArbitrageOpportunity :=
  let ms := match_products simFn src tgt
  let opportunities :=
    ((ms.filter fun m => !decide (m.similarity < 0.7)).map fun m =>
        analyze_opportunity oid m.source m.target).filter
      fun o => is_profitable_opportunity thr o
  List.insertionSort (fun a b => b.net_profit ≤ a.net_profit) opportunities

/-- Keyword tables of `SeasonalAnalyzer.get_seasonal_multiplier`. -/
def electronics_keywords : List String := ["iphone", "samsung", "laptop", "tablet", "headphones"]

/-- Gaming keyword table of `get_seasonal_multiplier`. -/
def gaming_keywords : List String := ["playstation", "xbox", "nintendo", "console", "game"]

/-- Fitness keyword table of `get_seasonal_multiplier`. -/
def fitness_keywords : List String := ["fitness", "treadmill", "weights", "exercise"]

/-- `any(keyword in title_lower for keyword in kws)`. -/
def title_has_any (title_lower : List Char) (kws : List String) : Bool :=
  kws.any fun k => charsSub title_lower k.data

/-- `SeasonalAnalyzer.get_seasonal_multiplier` (the `month : ℕ` input models
`current_date.month`, defaulted from `datetime.now()` in the source).  The
source is an `if/elif` chain: months 8 and 9 are tested by the
back-to-school branch before the summer branch can see month 8. -/
def get_seasonal_multiplier (product_title : String) (month : ℕ) : ℚ :=
  let title_lower := lowerChars product_title
  if month = 11 ∨ month = 12 then
    (if title_has_any title_lower (electronics_keywords ++ gaming_keywords) then 1.3 else 1.0)
  else if month = 1 ∨ month = 2 then
    (if title_has_any title_lower fitness_keywords then 1.4 else 1.0)
  else if month = 8 ∨ month = 9 then
    (if title_has_any title_lower ["laptop", "tablet", "backpack"] then 1.2 else 1.0)
  else if month = 6 ∨ month = 7 ∨ month = 8 then
    (if title_has_any title_lower ["camera", "phone", "speaker"] then 1.1 else 1.0)
  else 1.0

/-- `RiskAssessment._assess_market_saturation`. -/
def assess_market_saturation (o : ArbitrageOpportunity) : ℚ :=
  if 100 < o.roi_percentage then 2.0 + 2.0
  else if o.roi_percentage < 25 then 2.0 - 0.5
  else 2.0

/-- Per-platform weight of `RiskAssessment._assess_platform_risk`
(`risk_scores.get(platform.lower(), 2.0)`). -/
def platform_risk_weight (platform : String) : ℚ :=
  if lowerChars platform = "ebay".data then 2.5
  else if lowerChars platform = "amazon".data then 1.5
  else 2.0

/-- `RiskAssessment._assess_platform_risk`. -/
def assess_platform_risk (o : ArbitrageOpportunity) : ℚ :=
  (platform_risk_weight o.source_platform + platform_risk_weight o.target_platform) / 2

/-- `RiskAssessment._assess_liquidity_risk`. -/
def assess_liquidity_risk (o : ArbitrageOpportunity) : ℚ :=
  if o.target_price < 50 then 2.0 - 0.5
  else if 500 < o.target_price then 2.0 + 1.5
  else 2.0

/-- `RiskAssessment._assess_time_sensitivity`. -/
def assess_time_sensitivity (o : ArbitrageOpportunity) : ℚ :=
  if 75 < o.roi_percentage then 1.5 + 1.0
  else if o.roi_percentage < 30 then 1.5 - 0.5
  else 1.5

/-- Risk-level bucketing in `RiskAssessment.assess_comprehensive_risk`. -/
def risk_level_of (total : ℚ) : String :=
  if total ≤ 8 then "low"
  else if total ≤ 15 then "medium"
  else if total ≤ 22 then "high"
  else "very_high"

/-- `RiskAssessment._generate_risk_recommendations`. -/
def generate_risk_recommendations (vol_r sat liq time : ℚ) (level : String) : List String :=
  (if 3 < vol_r then ["Monitor price closely - high volatility detected"] else []) ++
  (if 3 < sat then ["Act quickly - high market competition"] else []) ++
  (if 3 < liq then ["Consider lower quantities - potential selling difficulty"] else []) ++
  (if 2.5 < time then ["Time-sensitive opportunity - prioritize execution"] else []) ++
  (if level = "very_high" then ["CAUTION: Very high risk - consider skipping"]
   else if level = "high" then ["High risk - ensure thorough due diligence"]
   else [])

/-- Result record of `RiskAssessment.assess_comprehensive_risk`
(`risk_breakdown` dict flattened into named component fields). -/
structure RiskAssessmentResult where
  total_risk_score : ℚ
  risk_level : String
  price_volatility : ℚ
  market_saturation : ℚ
  platform_risk : ℚ
  liquidity_risk : ℚ
  time_sensitivity : ℚ
  recommendations : List String
deriving DecidableEq

/-- `RiskAssessment.assess_comprehensive_risk`.  `vol o` models the
database-supplied `price_trend.get('volatility', 20)` for the opportunity. -/
def assess_comprehensive_risk (vol : ArbitrageOpportunity → ℚ)
    (o : ArbitrageOpportunity) : RiskAssessmentResult :=
  let volatility_risk := min (vol o / 10) 5
  let saturation_risk := assess_market_saturation o
  let platform_risk := assess_platform_risk o
  let liquidity_risk := assess_liquidity_risk o
  let time_risk := assess_time_sensitivity o
  let total := volatility_risk + saturation_risk + platform_risk + liquidity_risk + time_risk
  let level := risk_level_of total
  { total_risk_score := total
    risk_level := level
    price_volatility := volatility_risk
    market_saturation := saturation_risk
    platform_risk := platform_risk
    liquidity_risk := liquidity_risk
    time_sensitivity := time_risk
    recommendations := generate_risk_recommendations volatility_risk saturation_risk
      liquidity_risk time_risk level }

/-- User-preference record accepted by `OpportunityRanker.rank_opportunities`. -/
structure UserPreferences where
  risk_tolerance : String
  profit_priority : String
  time_horizon : String
  capital_available : ℚ
deriving DecidableEq

/-- Default preferences substituted when `rank_opportunities` is called with
`user_preferences = None` (as `AutomatedDecisionEngine` does). -/
def default_user_preferences : UserPreferences :=
  { risk_tolerance := "medium", profit_priority := "balanced",
    time_horizon := "short", capital_available := 1000 }

/-- Weight record built by `OpportunityRanker._get_scoring_weights`. -/
structure ScoringWeights where
  profit : ℚ
  roi : ℚ
  risk : ℚ
  seasonal : ℚ
  velocity : ℚ
deriving DecidableEq

/-- `OpportunityRanker._get_scoring_weights`: base weights, then the
`risk_tolerance` adjustment, then the `profit_priority` adjustment. -/
def get_scoring_weights (p : UserPreferences) : ScoringWeights :=
  let w : ScoringWeights := { profit := 0.3, roi := 0.25, risk := 0.25, seasonal := 0.1, velocity := 0.1 }
  let w :=
    if p.risk_tolerance = "low" then { w with risk := 0.4, profit := 0.2 }
    else if p.risk_tolerance = "high" then { w with risk := 0.1, profit := 0.4 }
    else w
  let w :=
    if p.profit_priority = "profit" then { w with profit := 0.5, roi := 0.15 }
    else if p.profit_priority = "roi" then { w with roi := 0.45, profit := 0.2 }
    else w
  w

/-- The five component scores of `_calculate_comprehensive_score`. -/
structure IndividualScores where
  profit : ℚ
  roi : ℚ
  risk : ℚ
  seasonal : ℚ
  velocity : ℚ
deriving DecidableEq

/-- The weighted-sum expression computing `composite_score` in
`_calculate_comprehensive_score`. -/
def weighted_composite (w : ScoringWeights) (s : IndividualScores) : ℚ :=
  s.profit * w.profit + s.roi * w.roi + s.risk * w.risk +
    s.seasonal * w.seasonal + s.velocity * w.velocity

/-- `OpportunityRanker._calculate_velocity_score`. -/
def calculate_velocity_score (o : ArbitrageOpportunity) : ℚ :=
  let score : ℚ := 50
  let score := score +
    (if 10 < o.source_stock then 20
     else if 5 < o.source_stock then 10
     else if o.source_stock ≤ 1 then -20
     else 0)
  let score := score +
    (if 4.5 ≤ o.source_seller_rating then 15
     else if 4 ≤ o.source_seller_rating then 10
     else if o.source_seller_rating < 3.5 then -15
     else 0)
  max 0 (min 100 score)

/-- Score record returned by `_calculate_comprehensive_score`. -/
structure ScoreData where
  composite_score : ℚ
  individual_scores : IndividualScores
  weights_used : ScoringWeights
  risk_assessment : RiskAssessmentResult
deriving DecidableEq

/-- `OpportunityRanker._calculate_comprehensive_score`. -/
def calculate_comprehensive_score (vol : ArbitrageOpportunity → ℚ) (month : ℕ)
    (o : ArbitrageOpportunity) (prefs : UserPreferences) : ScoreData :=
  let weights := get_scoring_weights prefs
  let profit_score := min (o.net_profit * 2) 100
  let roi_score := min o.roi_percentage 100
  let risk_assessment := assess_comprehensive_risk vol o
  let risk_score := max 0 (100 - risk_assessment.total_risk_score * 4)
  let seasonal_multiplier := get_seasonal_multiplier o.product_title month
  let seasonal_score := max 0 (min 100 ((seasonal_multiplier - 0.5) * 100))
  let velocity_score := calculate_velocity_score o
  let scores : IndividualScores :=
    { profit := profit_score, roi := roi_score, risk := risk_score,
      seasonal := seasonal_score, velocity := velocity_score }
  { composite_score := weighted_composite weights scores
    individual_scores := scores
    weights_used := weights
    risk_assessment := risk_assessment }

/-- `OpportunityRanker.rank_opportunities`: score every opportunity, then
stable-sort by `composite_score` descending. -/
def rank_opportunities (vol : ArbitrageOpportunity → ℚ) (month : ℕ)
    (opps : List ArbitrageOpportunity) (prefs : UserPreferences) :
    List (ArbitrageOpportunity × ScoreData) :=
  List.insertionSort (fun a b => b.2.composite_score ≤ a.2.composite_score)
    (opps.map fun o => (o, calculate_comprehensive_score vol month o prefs))

/-- Decision criteria accepted by
`AutomatedDecisionEngine.make_automated_decisions` (defaults as in the
source `criteria.get` calls). -/
structure DecisionCriteria where
  max_capital : ℚ := 1000
  min_composite_score : ℚ := 60
  max_risk_score : ℚ := 15
  min_profit : ℚ := 10
deriving DecidableEq

/-- Decision dict returned by `_evaluate_single_opportunity` (`expected_*`
keys only present on `buy`). -/
structure Decision where
  action : String
  reason : String
  capital_required : ℚ
  confidence : ℚ
  expected_profit : Option ℚ := none
  expected_roi : Option ℚ := none
deriving DecidableEq

/-- `AutomatedDecisionEngine._evaluate_single_opportunity`. -/
def evaluate_single_opportunity (o : ArbitrageOpportunity) (sd : ScoreData)
    (criteria : DecisionCriteria) (available_capital : ℚ) : Decision :=
  let capital_required := o.source_price + o.source_shipping
  if available_capital < capital_required then
    { action := "skip", reason := "insufficient_capital",
      capital_required := capital_required, confidence := 0 }
  else if sd.composite_score < criteria.min_composite_score then
    { action := "skip", reason := "low_score",
      capital_required := capital_required, confidence := 0.2 }
  else if criteria.max_risk_score < sd.risk_assessment.total_risk_score then
    { action := "skip", reason := "too_risky",
      capital_required := capital_required, confidence := 0.3 }
  else if o.net_profit < criteria.min_profit then
    { action := "skip", reason := "insufficient_profit",
      capital_required := capital_required, confidence := 0.1 }
  else
    { action := "buy", reason := "meets_criteria",
      capital_required := capital_required,
      confidence := min (sd.composite_score / 100) 0.95,
      expected_profit := some o.net_profit,
      expected_roi := some o.roi_percentage }

/-- Per-opportunity record appended by `make_automated_decisions`. -/
structure DecisionRecord where
  opportunity_id : String
  decision : Decision
  score_data : ScoreData
deriving DecidableEq

/-- The decision loop of `make_automated_decisions`: walk the ranked list
accumulating `total_capital_used`, and break (after appending) once
`total_capital_used >= available_capital * 0.95`. -/
def decisions_loop (criteria : DecisionCriteria) (available_capital : ℚ) :
    List (ArbitrageOpportunity × ScoreData) → ℚ → List DecisionRecord
  | [], _ => []
  | (o, sd) :: rest, total_used =>
    let d := evaluate_single_opportunity o sd criteria (available_capital - total_used)
    let total_used2 := if d.action = "buy" then total_used + d.capital_required else total_used
    { opportunity_id := o.opportunity_id, decision := d, score_data := sd } ::
      (if available_capital * 0.95 ≤ total_used2 then []
       else decisions_loop criteria available_capital rest total_used2)

/-- Instrumented copy of `decisions_loop` that also records, with each
decision, the `total_capital_used` value at the moment the opportunity was
processed.  `decisions_loop_tr_fst` below proves it computes the same
decisions as `decisions_loop`. -/
def decisions_loop_tr (criteria : DecisionCriteria) (available_capital : ℚ) :
    List (ArbitrageOpportunity × ScoreData) → ℚ → List (DecisionRecord × ℚ)
  | [], _ => []
  | (o, sd) :: rest, total_used =>
    let d := evaluate_single_opportunity o sd criteria (available_capital - total_used)
    let total_used2 := if d.action = "buy" then total_used + d.capital_required else total_used
    ({ opportunity_id := o.opportunity_id, decision := d, score_data := sd }, total_used) ::
      (if available_capital * 0.95 ≤ total_used2 then []
       else decisions_loop_tr criteria available_capital rest total_used2)

/-- `AutomatedDecisionEngine.make_automated_decisions`. -/
def make_automated_decisions (vol : ArbitrageOpportunity → ℚ) (month : ℕ)
    (opps : List ArbitrageOpportunity) (criteria : DecisionCriteria) : List DecisionRecord :=
  decisions_loop criteria criteria.max_capital
    (rank_opportunities vol month opps default_user_preferences) 0

/-- Cumulative `capital_required` of the `buy` decisions in a decision list. -/
def buy_capital_total (ds : List DecisionRecord) : ℚ :=
  ((ds.filter fun d => d.decision.action = "buy").map fun d => d.decision.capital_required).sum

/-- Preference record with `risk_tolerance = "low"`, `profit_priority =
"balanced"` (claim C10). -/
def low_balanced_preferences : UserPreferences :=
  { risk_tolerance := "low", profit_priority := "balanced",
    time_horizon := "short", capital_available := 1000 }

/-- The all-100 component-score vector. -/
def all_hundred_scores : IndividualScores :=
  { profit := 100, roi := 100, risk := 100, seasonal := 100, velocity := 100 }

/-- Zero price-trend volatility input (concrete instances). -/
def vol_zero : ArbitrageOpportunity → ℚ := fun _ => 0

/-- Concrete opportunity with a fitness-keyword title (used to exhibit the
hidden clock dependence of ranking). -/
def opp_fitness : ArbitrageOpportunity :=
  { opportunity_id := "A", source_platform := "ebay", target_platform := "amazon",
    product_title := "fitness", source_price := 30, target_price := 100,
    net_profit := 20, roi_percentage := 50,
    source_seller_rating := 4.5, source_stock := 20 }

/-- Concrete opportunity with a keyword-free title, otherwise comparable. -/
def opp_widget : ArbitrageOpportunity :=
  { opportunity_id := "B", source_platform := "ebay", target_platform := "amazon",
    product_title := "widget", source_price := 30, target_price := 100,
    net_profit := 25, roi_percentage := 50,
    source_seller_rating := 4.5, source_stock := 20 }

/-- Similarity oracle that rates every pair `1` (concrete instances). -/
def sim_one : String → String → ℚ := fun _ _ => 1

/-- Concrete source catalog (distinct product ids). -/
def src_products : List Product :=
  [{ platform := "ebay", product_id := "s1", title := "iphone 12", price := 100 },
   { platform := "ebay", product_id := "s2", title := "iphone 12 pro", price := 120 }]

/-- Concrete target catalog (distinct product ids). -/
def tgt_products : List Product :=
  [{ platform := "amazon", product_id := "t1", title := "iphone 12", price := 200 }]

/-- Source listing on an unknown platform with positive price (zero fees,
positive total cost). -/
def src_pos : Product := { platform := "x", product_id := "p1", title := "thing", price := 10 }

/-- Target listing on an unknown platform (zero fees). -/
def tgt_pos : Product := { platform := "x", product_id := "p2", title := "thing", price := 50 }

/-- Source listing with zero price, shipping and fees (zero total cost). -/
def src_free : Product := { platform := "x", product_id := "p3", title := "thing", price := 0 }

/-- Target listing paired with `src_free` (zero total cost). -/
def tgt_free : Product := { platform := "x", product_id := "p4", title := "thing", price := 0 }

/-- Default decision criteria record (all source defaults). -/
def criteria_default : DecisionCriteria := {}

/-- A concrete scored (ranked) opportunity pair. -/
def ranked_pair : ArbitrageOpportunity × ScoreData :=
  (opp_widget, calculate_comprehensive_score vol_zero 3 opp_widget default_user_preferences)

/-!  ### General lemmas: stable descending sort by a rational key  -/

theorem filter_key_orderedInsert {α : Type} (key : α → ℚ) (q : ℚ) (x : α) (l : List α) :
    ((l.orderedInsert (fun a b => key b ≤ key a) x).filter fun a => decide (key a = q)) =
      if key x = q then x :: (l.filter fun a => decide (key a = q))
      else l.filter fun a => decide (key a = q) := by
  rw [List.orderedInsert_eq_take_drop, List.filter_append]
  by_cases h : key x = q
  · rw [if_pos h]
    have h1 : ((l.takeWhile fun b => decide ¬ (key b ≤ key x)).filter
        fun a => decide (key a = q)) = [] := by
      rw [List.filter_eq_nil_iff]
      intro a ha
      have h2 := List.mem_takeWhile_imp ha
      simp only [decide_eq_true_eq] at h2 ⊢
      intro hq
      exact h2 (le_of_eq (hq.trans h.symm))
    rw [h1, List.nil_append, List.filter_cons]
    have hx : decide (key x = q) = true := decide_eq_true h
    rw [if_pos hx]
    congr 1
    conv_rhs => rw [← List.takeWhile_append_dropWhile (p := fun b => decide ¬ (key b ≤ key x)) (l := l)]
    rw [List.filter_append, h1, List.nil_append]
  · rw [if_neg h, List.filter_cons]
    have hx : ¬ (decide (key x = q) = true) := by simpa using h
    rw [if_neg hx]
    conv_rhs => rw [← List.takeWhile_append_dropWhile (p := fun b => decide ¬ (key b ≤ key x)) (l := l)]
    rw [List.filter_append]

theorem insertionSort_stable_key {α : Type} (key : α → ℚ) (q : ℚ) (l : List α) :
    ((List.insertionSort (fun a b => key b ≤ key a) l).filter fun a => decide (key a = q)) =
      l.filter fun a => decide (key a = q) := by
  induction l with
  | nil => rfl
  | cons x l ih =>
    simp only [List.insertionSort]
    rw [filter_key_orderedInsert, List.filter_cons]
    by_cases h : key x = q
    · rw [if_pos h, ih, if_pos (decide_eq_true h)]
    · rw [if_neg h, ih, if_neg (by simpa using h)]

theorem insertionSort_sorted_key {α : Type} (key : α → ℚ) (l : List α) :
    List.Sorted (fun a b => key b ≤ key a) (List.insertionSort (fun a b => key b ≤ key a) l) := by
  haveI : IsTotal α fun a b => key b ≤ key a := ⟨fun a b => le_total (key b) (key a)⟩
  haveI : IsTrans α fun a b => key b ≤ key a := ⟨fun a b c h1 h2 => le_trans h2 h1⟩
  exact List.sorted_insertionSort _ l

/-!  ### Lemmas about the greedy selection loop of `_match_products`  -/

theorem select_unique_mem_notseen :
    ∀ (l : List MatchCand) (sS sT : List String) (c : MatchCand),
      c ∈ select_unique l sS sT →
        c.source.product_id ∉ sS ∧ c.target.product_id ∉ sT := by
  intro l
  induction l with
  | nil => intro sS sT c h; simp [select_unique] at h
  | cons x rest ih =>
    intro sS sT c h
    rw [select_unique] at h
    by_cases hx : x.source.product_id ∉ sS ∧ x.target.product_id ∉ sT
    · rw [if_pos hx] at h
      rcases List.mem_cons.mp h with rfl | hmem
      · exact hx
      · have h2 := ih _ _ _ hmem
        exact ⟨fun hc => h2.1 (List.mem_cons_of_mem _ hc),
               fun hc => h2.2 (List.mem_cons_of_mem _ hc)⟩
    · rw [if_neg hx] at h
      exact ih _ _ _ h

theorem select_unique_pairwise :
    ∀ (l : List MatchCand) (sS sT : List String),
      List.Pairwise
        (fun a b => a.source.product_id ≠ b.source.product_id ∧
                    a.target.product_id ≠ b.target.product_id)
        (select_unique l sS sT) := by
  intro l
  induction l with
  | nil => intro sS sT; simp [select_unique]
  | cons x rest ih =>
    intro sS sT
    rw [select_unique]
    by_cases hx : x.source.product_id ∉ sS ∧ x.target.product_id ∉ sT
    · rw [if_pos hx]
      refine List.Pairwise.cons ?_ (ih _ _)
      intro b hb
      have h2 := select_unique_mem_notseen _ _ _ _ hb
      constructor
      · intro he
        exact h2.1 (by rw [← he]; exact List.mem_cons_self _ _)
      · intro he
        exact h2.2 (by rw [← he]; exact List.mem_cons_self _ _)
    · rw [if_neg hx]
      exact ih _ _

theorem select_unique_sublist :
    ∀ (l : List MatchCand) (sS sT : List String), (select_unique l sS sT).Sublist l := by
  intro l
  induction l with
  | nil => intro sS sT; simp [select_unique]
  | cons x rest ih =>
    intro sS sT
    rw [select_unique]
    by_cases hx : x.source.product_id ∉ sS ∧ x.target.product_id ∉ sT
    · rw [if_pos hx]; exact List.Sublist.cons₂ _ (ih _ _)
    · rw [if_neg hx]; exact List.Sublist.cons _ (ih _ _)

/-!  ### Characterisation of the candidate-collection loop  -/

theorem filterMap_sim_filter (simFn : String → String → ℚ) (s : Product) (tgt : List Product) :
    (tgt.filterMap fun t =>
        let similarity := simFn s.title t.title
        if 0.6 < similarity then some (⟨s, t, similarity⟩ : MatchCand) else none) =
      ((tgt.map fun t => (⟨s, t, simFn s.title t.title⟩ : MatchCand)).filter
        fun c => decide ((0.6:ℚ) < c.similarity)) := by
  induction tgt with
  | nil => rfl
  | cons t ts ih =>
    simp only [List.filterMap_cons, List.map_cons, List.filter_cons]
    by_cases h : (0.6:ℚ) < simFn s.title t.title
    · simp only [if_pos h, decide_eq_true h, ih]
      rw [if_pos trivial]
    · simp only [if_neg h, ih]
      rw [if_neg (by simpa using h)]

theorem match_candidates_eq_filter (simFn : String → String → ℚ) (src tgt : List Product) :
    match_candidates simFn src tgt =
      (all_pairs simFn src tgt).filter fun c => decide ((0.6:ℚ) < c.similarity) := by
  induction src with
  | nil => rfl
  | cons s ss ih =>
    simp only [match_candidates, all_pairs, List.flatMap_cons, List.filter_append] at ih ⊢
    rw [ih, filterMap_sim_filter]

theorem match_products_sim_gt (simFn : String → String → ℚ) (src tgt : List Product) :
    ∀ c ∈ match_products simFn src tgt, (0.6:ℚ) < c.similarity := by
  intro c hc
  have h1 : c ∈ sort_by_similarity (match_candidates simFn src tgt) :=
    (select_unique_sublist _ _ _).subset hc
  have h2 : c ∈ match_candidates simFn src tgt := by
    simp only [sort_by_similarity] at h1
    exact (List.perm_insertionSort _ _).mem_iff.mp h1
  rw [match_candidates_eq_filter] at h2
  have h3 := List.mem_filter.mp h2
  simpa using h3.2

/-!  ### Lemmas about the decision loop  -/

theorem evaluate_buy_facts (o : ArbitrageOpportunity) (sd : ScoreData)
    (criteria : DecisionCriteria) (A : ℚ)
    (h : (evaluate_single_opportunity o sd criteria A).action = "buy") :
    (evaluate_single_opportunity o sd criteria A).capital_required =
        o.source_price + o.source_shipping ∧
      o.source_price + o.source_shipping ≤ A := by
  unfold evaluate_single_opportunity at h ⊢
  dsimp only at h ⊢
  split_ifs at h ⊢ with h1 h2 h3 h4
  · simp at h
  · simp at h
  · simp at h
  · simp at h
  · exact ⟨rfl, not_lt.mp h1⟩

theorem buy_capital_total_cons (r : DecisionRecord) (ds : List DecisionRecord) :
    buy_capital_total (r :: ds) =
      (if r.decision.action = "buy" then r.decision.capital_required else 0) +
        buy_capital_total ds := by
  simp only [buy_capital_total, List.filter_cons]
  by_cases h : r.decision.action = "buy"
  · rw [if_pos (decide_eq_true h), if_pos h, List.map_cons, List.sum_cons]
  · rw [if_neg (by simpa using h), if_neg h, zero_add]

theorem decisions_loop_capital (criteria : DecisionCriteria) (avail : ℚ) :
    ∀ (l : List (ArbitrageOpportunity × ScoreData)) (used : ℚ), used ≤ avail →
      buy_capital_total (decisions_loop criteria avail l used) ≤ avail - used := by
  intro l
  induction l with
  | nil =>
    intro used hu
    simp only [decisions_loop, buy_capital_total, List.filter_nil, List.map_nil, List.sum_nil]
    linarith
  | cons p rest ih =>
    intro used hu
    obtain ⟨o, sd⟩ := p
    rw [decisions_loop]
    by_cases hb : (evaluate_single_opportunity o sd criteria (avail - used)).action = "buy"
    · have hfacts := evaluate_buy_facts o sd criteria (avail - used) hb
      have hcr2 : (evaluate_single_opportunity o sd criteria (avail - used)).capital_required ≤
          avail - used := by
        rw [hfacts.1]; exact hfacts.2
      rw [if_pos hb]
      by_cases hg : avail * 0.95 ≤
        used + (evaluate_single_opportunity o sd criteria (avail - used)).capital_required
      · rw [if_pos hg, buy_capital_total_cons]
        dsimp only
        rw [if_pos hb]
        simp only [buy_capital_total, List.filter_nil, List.map_nil, List.sum_nil]
        linarith
      · rw [if_neg hg, buy_capital_total_cons]
        dsimp only
        rw [if_pos hb]
        have h3 := ih
          (used + (evaluate_single_opportunity o sd criteria (avail - used)).capital_required)
          (by linarith)
        linarith
    · rw [if_neg hb]
      by_cases hg : avail * 0.95 ≤ used
      · rw [if_pos hg, buy_capital_total_cons]
        dsimp only
        rw [if_neg hb]
        simp only [buy_capital_total, List.filter_nil, List.map_nil, List.sum_nil]
        linarith
      · rw [if_neg hg, buy_capital_total_cons]
        dsimp only
        rw [if_neg hb]
        have h3 := ih used hu
        linarith

theorem decisions_loop_tr_used (criteria : DecisionCriteria) (avail : ℚ) :
    ∀ (l : List (ArbitrageOpportunity × ScoreData)) (used : ℚ),
      ∀ e ∈ decisions_loop_tr criteria avail l used, e.2 = used ∨ e.2 < avail * 0.95 := by
  intro l
  induction l with
  | nil => intro used e he; simp [decisions_loop_tr] at he
  | cons p rest ih =>
    intro used e he
    obtain ⟨o, sd⟩ := p
    rw [decisions_loop_tr] at he
    rcases List.mem_cons.mp he with rfl | hmem
    · left; rfl
    · set used2 :=
        (if (evaluate_single_opportunity o sd criteria (avail - used)).action = "buy" then
          used + (evaluate_single_opportunity o sd criteria (avail - used)).capital_required
        else used) with hused2
      by_cases hg : avail * 0.95 ≤ used2
      · rw [if_pos hg] at hmem
        simp at hmem
      · rw [if_neg hg] at hmem
        right
        rcases ih used2 e hmem with h | h
        · rw [h]; exact lt_of_not_le hg
        · exact h

theorem decisions_loop_tr_tail (criteria : DecisionCriteria) (avail : ℚ)
    (l : List (ArbitrageOpportunity × ScoreData)) (used : ℚ) :
    ∀ e ∈ (decisions_loop_tr criteria avail l used).tail, e.2 < avail * 0.95 := by
  intro e he
  cases l with
  | nil => simp [decisions_loop_tr] at he
  | cons p rest =>
    obtain ⟨o, sd⟩ := p
    rw [decisions_loop_tr] at he
    simp only [List.tail_cons] at he
    set used2 :=
      (if (evaluate_single_opportunity o sd criteria (avail - used)).action = "buy" then
        used + (evaluate_single_opportunity o sd criteria (avail - used)).capital_required
      else used) with hused2
    by_cases hg : avail * 0.95 ≤ used2
    · rw [if_pos hg] at he
      simp at he
    · rw [if_neg hg] at he
      rcases decisions_loop_tr_used criteria avail rest used2 e he with h | h
      · rw [h]; exact lt_of_not_le hg
      · exact h

theorem decisions_loop_tr_fst (criteria : DecisionCriteria) (avail : ℚ) :
    ∀ (l : List (ArbitrageOpportunity × ScoreData)) (used : ℚ),
      (decisions_loop_tr criteria avail l used).map Prod.fst =
        decisions_loop criteria avail l used := by
  intro l
  induction l with
  | nil => intro used; rfl
  | cons p rest ih =>
    intro used
    obtain ⟨o, sd⟩ := p
    rw [decisions_loop_tr, decisions_loop]
    simp only [List.map_cons]
    congr 1
    set used2 :=
      (if (evaluate_single_opportunity o sd criteria (avail - used)).action = "buy" then
        used + (evaluate_single_opportunity o sd criteria (avail - used)).capital_required
      else used) with hused2
    by_cases hg : avail * 0.95 ≤ used2
    · rw [if_pos hg, if_pos hg]; rfl
    · rw [if_neg hg, if_neg hg]; exact ih used2

/-!  ### Claim theorems  -/

/-- C1: for every Opportunity built from a matched (source, target) pair,
`net_profit` equals `target.price` minus (`source.price + source.shipping +
source_fee + target_fee`), where `source_fee` is the buy-side fee for the
source platform and `target_fee` the sell-side fee for the target platform. -/
theorem C1_net_profit_formula (oid : String) (s t : Product) :
    (analyze_opportunity oid s t).net_profit =
      t.price - (s.price + s.shipping + calculate_fees s.price s.platform "buy" +
        calculate_fees t.price t.platform "sell") := by
  simp only [analyze_opportunity, total_costs]

/-- C3: within a single match run over collections with pairwise-distinct
product ids, every source product id and every target product id appears in
at most one selected match (the selected matching is injective on both
sides).  The proof does not even need the distinctness hypotheses: the
`seen_sources`/`seen_targets` sets enforce id-injectivity unconditionally. -/
theorem C3_matching_injective (simFn : String → String → ℚ) (src tgt : List Product)
    (hs : (src.map fun p => p.product_id).Nodup)
    (ht : (tgt.map fun p => p.product_id).Nodup) :
    List.Pairwise
      (fun a b => a.source.product_id ≠ b.source.product_id ∧
                  a.target.product_id ≠ b.target.product_id)
      (match_products simFn src tgt) :=
  select_unique_pairwise _ _ _

/-- Witness for C3 at a concrete pair of catalogs and similarity oracle. -/
theorem C3_matching_injective_witness :
    ((src_products.map fun p => p.product_id).Nodup ∧
      (tgt_products.map fun p => p.product_id).Nodup) ∧
    List.Pairwise
      (fun a b => a.source.product_id ≠ b.source.product_id ∧
                  a.target.product_id ≠ b.target.product_id)
      (match_products sim_one src_products tgt_products) := by
  have h1 : (src_products.map fun p => p.product_id).Nodup := by decide
  have h2 : (tgt_products.map fun p => p.product_id).Nodup := by decide
  exact ⟨⟨h1, h2⟩, C3_matching_injective sim_one src_products tgt_products h1 h2⟩

/-- C4: `roi_percentage` equals `net_profit / total_cost × 100` whenever
`total_cost > 0`, and equals `0` when `total_cost = 0`; the zero denominator
is guarded by the `if total_costs > 0` test (the division never executes on
a zero denominator). -/
theorem C4_roi_guarded (oid : String) (s t : Product) :
    (0 < total_costs s t →
      (analyze_opportunity oid s t).roi_percentage =
        (analyze_opportunity oid s t).net_profit / total_costs s t * 100) ∧
    (total_costs s t = 0 → (analyze_opportunity oid s t).roi_percentage = 0) := by
  constructor
  · intro h
    simp only [analyze_opportunity]
    rw [if_pos h]
  · intro h
    simp only [analyze_opportunity]
    rw [if_neg (by rw [h]; exact lt_irrefl 0)]

/-- Witness for C4: a pair with positive total cost (ROI formula applies)
and a pair with zero total cost (ROI is 0). -/
theorem C4_roi_guarded_witness :
    (0 < total_costs src_pos tgt_pos ∧
      (analyze_opportunity "o1" src_pos tgt_pos).roi_percentage =
        (analyze_opportunity "o1" src_pos tgt_pos).net_profit / total_costs src_pos tgt_pos * 100) ∧
    (total_costs src_free tgt_free = 0 ∧
      (analyze_opportunity "o2" src_free tgt_free).roi_percentage = 0) := by
  have h1 : total_costs src_pos tgt_pos = 10 := by
    simp [total_costs, calculate_fees, src_pos, tgt_pos]
  have h2 : total_costs src_free tgt_free = 0 := by
    simp [total_costs, calculate_fees, src_free, tgt_free]
  have h3 : 0 < total_costs src_pos tgt_pos := by rw [h1]; norm_num
  exact ⟨⟨h3, (C4_roi_guarded "o1" src_pos tgt_pos).1 h3⟩,
         ⟨h2, (C4_roi_guarded "o2" src_free tgt_free).2 h2⟩⟩

/-- C5: for every source product, target product and profit value —
including zero ratings, zero stock and extreme price ratios — the inline
risk score lies in the closed interval [0, 10]. -/
theorem C5_risk_score_bounds (s t : Product) (profit : ℚ) :
    0 ≤ calculate_risk_score s t profit ∧ calculate_risk_score s t profit ≤ 10 := by
  have h1 : 0 ≤ price_ratio_risk s t := by
    unfold price_ratio_risk; split_ifs <;> norm_num
  have h2 : 0 ≤ source_rating_risk s := by
    unfold source_rating_risk; split_ifs <;> norm_num
  have h3 : 0 ≤ target_rating_risk t := by
    unfold target_rating_risk; split_ifs <;> norm_num
  have h4 : 0 ≤ stock_risk s := by
    unfold stock_risk; split_ifs <;> norm_num
  have h5 : 0 ≤ profit_margin_risk profit := by
    unfold profit_margin_risk; split_ifs <;> norm_num
  have h6 : 0 ≤ platform_risk_offset s := by
    unfold platform_risk_offset; split_ifs <;> norm_num
  unfold calculate_risk_score
  exact ⟨le_min (by linarith) (by norm_num), min_le_right _ _⟩

/-- C7 counterexample: the sell-side Amazon fee actually used by the
analyzer (`_calculate_amazon_fees`) is not the category-keyed, price-tiered
fee with closing fees described by the claim (which matches
`AmazonAPI.calculate_fees`): at price £5 in category `books` the analyzer
charges £4.00 (15% + £2.50 + £0.75) while the claimed model charges £5.16
(15% + £2.31 small-standard band + £0.75 + £1.35 closing fee). -/
theorem C7_counterexample :
    calculate_amazon_fees 5 "sell" = 4 ∧
    amazonapi_calculate_fees 5 "books" = 5.16 ∧
    calculate_amazon_fees 5 "sell" < amazonapi_calculate_fees 5 "books" := by
  have h1 : amazon_referral_fee_rate "books" = 0.15 := rfl
  refine ⟨?_, ?_, ?_⟩ <;>
    norm_num [calculate_amazon_fees, amazonapi_calculate_fees, h1]

/-- C7 (amended): the Amazon sell-side fee used in opportunity analysis is
the flat `price × 0.15 + £2.50 + £0.75`, independent of category, with no
price tiers and no closing fee; the buy-side fee is zero.  (The
category-keyed, three-band, closing-fee model exists in the Amazon API
client, `amazonapi_calculate_fees`, but the analyzer does not use it.) -/
theorem C7_amended_flat_amazon_fee (price : ℚ) :
    calculate_amazon_fees price "sell" = price * 0.15 + 2.50 + 0.75 ∧
    calculate_amazon_fees price "buy" = 0 ∧
    calculate_fees price "amazon" "sell" = price * 0.15 + 2.50 + 0.75 ∧
    calculate_fees price "amazon" "buy" = 0 := by
  refine ⟨?_, ?_, ?_, ?_⟩ <;>
    simp [calculate_amazon_fees, calculate_fees]

/-- C8 evidence: `get_seasonal_multiplier` returns 1.1 for a `camera` title
in June and July but 1.0 in August — the `elif month in [8, 9]`
back-to-school branch shadows the `month in [6, 7, 8]` summer branch, even
though the summer condition (and its `June-August` comment in the source)
lists month 8.  The claim (and the spec) say camera/phone/speaker titles in
June–August yield 1.1. -/
theorem C8_seasonal_august_shadowed :
    get_seasonal_multiplier "camera" 6 = 1.1 ∧
    get_seasonal_multiplier "camera" 7 = 1.1 ∧
    get_seasonal_multiplier "camera" 8 = 1.0 := by
  exact ⟨rfl, rfl, rfl⟩

/-- C10: with `risk_tolerance = low` and `profit_priority = balanced` the
scoring weights are profit 0.2, roi 0.25, risk 0.4, seasonal 0.1,
velocity 0.1, summing to 1.05 (strictly above 1); consequently the weighted
composite of an all-100 component vector is 105, strictly above 100, so the
composite is not a convex combination of the component scores. -/
theorem C10_low_balanced_weights :
    get_scoring_weights low_balanced_preferences =
        { profit := 0.2, roi := 0.25, risk := 0.4, seasonal := 0.1, velocity := 0.1 } ∧
      (get_scoring_weights low_balanced_preferences).profit +
          (get_scoring_weights low_balanced_preferences).roi +
          (get_scoring_weights low_balanced_preferences).risk +
          (get_scoring_weights low_balanced_preferences).seasonal +
          (get_scoring_weights low_balanced_preferences).velocity = 1.05 ∧
      (1 : ℚ) < 1.05 ∧
      weighted_composite (get_scoring_weights low_balanced_preferences) all_hundred_scores = 105 ∧
      (100 : ℚ) < weighted_composite (get_scoring_weights low_balanced_preferences)
        all_hundred_scores := by
  have hw : get_scoring_weights low_balanced_preferences =
      { profit := 0.2, roi := 0.25, risk := 0.4, seasonal := 0.1, velocity := 0.1 } := rfl
  refine ⟨hw, ?_, by norm_num, ?_, ?_⟩
  · rw [hw]; norm_num
  · rw [hw]; simp only [weighted_composite, all_hundred_scores]; norm_num
  · rw [hw]; simp only [weighted_composite, all_hundred_scores]; norm_num

/-- C2: over any ranked opportunity list, the cumulative `capital_required`
of the `buy` decisions issued by the decision loop never exceeds
`max_capital` (the only hypothesis is that the configured budget is a
non-negative amount), and — via the instrumented loop, proved equal to the
source loop in the third conjunct — every opportunity after the first is
only processed while remaining capital strictly exceeds 5% of
`max_capital` (the loop breaks as soon as the remaining capital falls to
5% or below).  The final conjunct ties the loop to
`make_automated_decisions`. -/
theorem C2_capital_invariants (criteria : DecisionCriteria)
    (ranked : List (ArbitrageOpportunity × ScoreData))
    (h : 0 ≤ criteria.max_capital) :
    buy_capital_total (decisions_loop criteria criteria.max_capital ranked 0) ≤
        criteria.max_capital ∧
      (∀ e ∈ (decisions_loop_tr criteria criteria.max_capital ranked 0).tail,
        0.05 * criteria.max_capital < criteria.max_capital - e.2) ∧
      (decisions_loop_tr criteria criteria.max_capital ranked 0).map Prod.fst =
        decisions_loop criteria criteria.max_capital ranked 0 ∧
      (∀ (vol : ArbitrageOpportunity → ℚ) (month : ℕ) (opps : List ArbitrageOpportunity),
        make_automated_decisions vol month opps criteria =
          decisions_loop criteria criteria.max_capital
            (rank_opportunities vol month opps default_user_preferences) 0) := by
  refine ⟨?_, ?_, decisions_loop_tr_fst _ _ _ _, fun vol month opps => rfl⟩
  · have h2 := decisions_loop_capital criteria criteria.max_capital ranked 0 h
    linarith
  · intro e he
    have h2 := decisions_loop_tr_tail criteria criteria.max_capital ranked 0 e he
    linarith

/-- Witness for C2 at the default criteria and a concrete one-element
ranked list. -/
theorem C2_capital_invariants_witness :
    0 ≤ criteria_default.max_capital ∧
      buy_capital_total
          (decisions_loop criteria_default criteria_default.max_capital [ranked_pair] 0) ≤
        criteria_default.max_capital := by
  have h : 0 ≤ criteria_default.max_capital := by decide
  exact ⟨h, (C2_capital_invariants criteria_default [ranked_pair] h).1⟩

/-- C6: the matcher keeps exactly the source×target pairs with similarity
strictly above 0.6 (first conjunct, and every selected match still
satisfies it, second conjunct); the surviving candidates are sorted by
similarity descending (third conjunct) stably — candidates of equal
similarity keep their input order (fourth conjunct, the filter-by-key
characterisation of stability); greedy selection takes a subsequence of
that sorted order (fifth conjunct) in which no source or target id is
claimed twice (sixth conjunct); and every constructed opportunity comes
from a selected match with similarity at least 0.7 (last conjunct). -/
theorem C6_matching_pipeline (simFn : String → String → ℚ) (oid : String)
    (thr : ProfitThresholds) (src tgt : List Product) :
    match_candidates simFn src tgt =
        ((all_pairs simFn src tgt).filter fun c => decide ((0.6:ℚ) < c.similarity)) ∧
      (∀ c ∈ match_products simFn src tgt, (0.6:ℚ) < c.similarity) ∧
      List.Sorted (fun a b => b.similarity ≤ a.similarity)
        (sort_by_similarity (match_candidates simFn src tgt)) ∧
      (∀ q : ℚ,
        ((sort_by_similarity (match_candidates simFn src tgt)).filter
            fun c => decide (c.similarity = q)) =
          (match_candidates simFn src tgt).filter fun c => decide (c.similarity = q)) ∧
      (match_products simFn src tgt).Sublist
        (sort_by_similarity (match_candidates simFn src tgt)) ∧
      List.Pairwise
        (fun a b => a.source.product_id ≠ b.source.product_id ∧
                    a.target.product_id ≠ b.target.product_id)
        (match_products simFn src tgt) ∧
      (∀ o ∈ find_opportunities simFn oid thr src tgt,
        ∃ c ∈ match_products simFn src tgt,
          (0.7:ℚ) ≤ c.similarity ∧ o = analyze_opportunity oid c.source c.target) := by
  refine ⟨match_candidates_eq_filter simFn src tgt,
          match_products_sim_gt simFn src tgt,
          insertionSort_sorted_key (fun c : MatchCand => c.similarity) _,
          fun q => insertionSort_stable_key (fun c : MatchCand => c.similarity) q _,
          select_unique_sublist _ _ _,
          select_unique_pairwise _ _ _,
          ?_⟩
  intro o ho
  simp only [find_opportunities] at ho
  have h1 := (List.perm_insertionSort
    (fun a b : ArbitrageOpportunity => b.net_profit ≤ a.net_profit) _).mem_iff.mp ho
  have h2 := List.mem_filter.mp h1
  obtain ⟨m, hm, heq⟩ := List.mem_map.mp h2.1
  have h3 := List.mem_filter.mp hm
  refine ⟨m, h3.1, ?_, heq.symm⟩
  have h4 := h3.2
  simp only [Bool.not_eq_true', decide_eq_false_iff_not, not_lt] at h4
  exact h4

/-- Witness for C6 at a concrete pair of catalogs and similarity oracle. -/
theorem C6_matching_pipeline_witness :
    match_candidates sim_one src_products tgt_products =
        ((all_pairs sim_one src_products tgt_products).filter
          fun c => decide ((0.6:ℚ) < c.similarity)) ∧
      (match_products sim_one src_products tgt_products).Sublist
        (sort_by_similarity (match_candidates sim_one src_products tgt_products)) :=
  ⟨(C6_matching_pipeline sim_one "w" {} src_products tgt_products).1,
   (C6_matching_pipeline sim_one "w" {} src_products tgt_products).2.2.2.2.1⟩

/-- C9 counterexample: ranking is not a function of (opportunities,
preferences, price-trend inputs) alone — `_calculate_comprehensive_score`
reads the current month from the wall clock (`get_seasonal_multiplier` with
`datetime.now()`).  With identical opportunity lists, identical default
preferences and identical (zero) volatility inputs, a run in January ranks
the fitness-titled opportunity first (seasonal multiplier 1.4, composite
59.5 vs 58.5) while a run in March ranks it second (multiplier 1.0,
composite 55.5 vs 58.5). -/
theorem C9_counterexample :
    (rank_opportunities vol_zero 1 [opp_fitness, opp_widget]
        default_user_preferences).map (fun p => p.1.opportunity_id) = ["A", "B"] ∧
    (rank_opportunities vol_zero 3 [opp_fitness, opp_widget]
        default_user_preferences).map (fun p => p.1.opportunity_id) = ["B", "A"] := by
  have hpe : platform_risk_weight "ebay" = 2.5 := rfl
  have hpa : platform_risk_weight "amazon" = 1.5 := rfl
  have hsf1 : get_seasonal_multiplier "fitness" 1 = 1.4 := rfl
  have hsf3 : get_seasonal_multiplier "fitness" 3 = 1.0 := rfl
  have hsw1 : get_seasonal_multiplier "widget" 1 = 1.0 := rfl
  have hsw3 : get_seasonal_multiplier "widget" 3 = 1.0 := rfl
  have hwd : get_scoring_weights default_user_preferences =
      { profit := 0.3, roi := 0.25, risk := 0.25, seasonal := 0.1, velocity := 0.1 } := rfl
  have hA1 : (calculate_comprehensive_score vol_zero 1 opp_fitness
      default_user_preferences).composite_score = 59.5 := by
    simp only [calculate_comprehensive_score, weighted_composite, hwd,
      assess_comprehensive_risk, assess_market_saturation,
      assess_platform_risk, assess_liquidity_risk, assess_time_sensitivity,
      calculate_velocity_score, vol_zero, opp_fitness, hpe, hpa, hsf1]
    norm_num [min_def, max_def]
  have hA3 : (calculate_comprehensive_score vol_zero 3 opp_fitness
      default_user_preferences).composite_score = 55.5 := by
    simp only [calculate_comprehensive_score, weighted_composite, hwd,
      assess_comprehensive_risk, assess_market_saturation,
      assess_platform_risk, assess_liquidity_risk, assess_time_sensitivity,
      calculate_velocity_score, vol_zero, opp_fitness, hpe, hpa, hsf3]
    norm_num [min_def, max_def]
  have hB1 : (calculate_comprehensive_score vol_zero 1 opp_widget
      default_user_preferences).composite_score = 58.5 := by
    simp only [calculate_comprehensive_score, weighted_composite, hwd,
      assess_comprehensive_risk, assess_market_saturation,
      assess_platform_risk, assess_liquidity_risk, assess_time_sensitivity,
      calculate_velocity_score, vol_zero, opp_widget, hpe, hpa, hsw1]
    norm_num [min_def, max_def]
  have hB3 : (calculate_comprehensive_score vol_zero 3 opp_widget
      default_user_preferences).composite_score = 58.5 := by
    simp only [calculate_comprehensive_score, weighted_composite, hwd,
      assess_comprehensive_risk, assess_market_saturation,
      assess_platform_risk, assess_liquidity_risk, assess_time_sensitivity,
      calculate_velocity_score, vol_zero, opp_widget, hpe, hpa, hsw3]
    norm_num [min_def, max_def]
  constructor
  · simp only [rank_opportunities, List.map_cons, List.map_nil,
      List.insertionSort, List.orderedInsert]
    rw [if_pos (by rw [hA1, hB1]; norm_num)]
    simp [opp_fitness, opp_widget]
  · simp only [rank_opportunities, List.map_cons, List.map_nil,
      List.insertionSort, List.orderedInsert]
    rw [if_neg (by rw [hA3, hB3]; norm_num)]
    simp [opp_fitness, opp_widget]

/-- C9 (amended): for a fixed evaluation month, ranking is deterministic —
identical opportunity lists, preference records and price-trend inputs
yield identical output orderings — the output is sorted by composite score
descending, and opportunities of equal composite score preserve their
input order (filter-by-score characterisation of the stable sort). -/
theorem C9_rank_deterministic_stable (vol : ArbitrageOpportunity → ℚ) (month : ℕ)
    (prefs : UserPreferences) (opps1 opps2 : List ArbitrageOpportunity)
    (h : opps1 = opps2) :
    rank_opportunities vol month opps1 prefs = rank_opportunities vol month opps2 prefs ∧
      List.Sorted (fun a b : ArbitrageOpportunity × ScoreData =>
          b.2.composite_score ≤ a.2.composite_score)
        (rank_opportunities vol month opps1 prefs) ∧
      (∀ q : ℚ,
        ((rank_opportunities vol month opps1 prefs).filter
            fun p => decide (p.2.composite_score = q)) =
          ((opps1.map fun o => (o, calculate_comprehensive_score vol month o prefs)).filter
            fun p => decide (p.2.composite_score = q))) := by
  subst h
  exact ⟨rfl,
    insertionSort_sorted_key
      (fun p : ArbitrageOpportunity × ScoreData => p.2.composite_score) _,
    fun q => insertionSort_stable_key
      (fun p : ArbitrageOpportunity × ScoreData => p.2.composite_score) q _⟩

/-- Witness for the amended C9 at a concrete input. -/
theorem C9_rank_deterministic_stable_witness :
    [opp_widget] = [opp_widget] ∧
      rank_opportunities vol_zero 3 [opp_widget] default_user_preferences =
        rank_opportunities vol_zero 3 [opp_widget] default_user_preferences :=
  ⟨rfl, (C9_rank_deterministic_stable vol_zero 3 default_user_preferences
    [opp_widget] [opp_widget] rfl).1⟩

end ArbBot
